import Mathlib

/-!
Verification of the QRMI python adapter layer (qiskit-community/qrmi).

The development shallowly embeds the two source files the claims are about:

* `src/python/qrmi/primitives/ionq/sampler.py` — the `IonQSamplerV2` class
  and its submit/poll/fetch loop (`IonQSamplerV2.run`).
* `src/python/qrmi/primitives/ibm/backend.py` — the `QRMIBackend` class,
  its `__getattr__` delegation and its unconditionally raising `run`.

The resource-management client (`QuantumResource`, written in Rust and
exposed through python bindings) is external to the excerpted sources; it
is modelled as a record of oracles, with the status answers indexed by the
number of status queries issued so far, so that a stateful stub client is
a plain function `Nat → TaskStatus`.  The polling loop, which the python
code writes as `while True`, is embedded with an explicit fuel parameter:
`fuel` is the maximum number of status queries the embedding is willing to
unfold, and running out of fuel is reported as its own outcome, distinct
from every outcome the python code can produce by leaving the loop.

Side effects (`time.sleep`, build of payloads, status queries, result
fetches, the status print) are recorded in an event trace, so that the
counting and ordering claims become statements about lists.
-/

namespace QRMI

/-- Task status as seen by the sampler.  The enumeration itself lives in the
external qrmi bindings; the sampler only compares against `Completed` and
`Failed`, every other value (including unknown or unexpected ones, which
`other` stands for) falls into the final `else` branch of the loop. -/
inductive TaskStatus where
  | Queued
  | Running
  | Completed
  | Failed
  | Cancelled
  | other (tag : Nat)
  deriving DecidableEq, Repr

/-- Task identifier: opaque value returned by `task_start`. -/
abbrev TaskId := Nat

/-- `Payload.IonQCloud(input=qasm3_str, shots=shots)` from sampler.py line 62. -/
inductive Payload where
  | IonQCloud (input : String) (shots : Nat)
  deriving DecidableEq, Repr

/-- The object returned by `task_result`; the sampler reads its `.value`. -/
structure TaskResult where
  value : String
  deriving DecidableEq, Repr

/-- The resource-management client (`self._qrmi`), modelled as oracles.
`task_status tid k` is the answer to the `(k+1)`-st status query issued for
`tid`; `task_start` may fail, which embeds a raised python exception. -/
structure QuantumResource where
  task_start : Payload → Except String TaskId
  task_status : TaskId → Nat → TaskStatus
  task_result : TaskId → TaskResult

/-- One observable step of `IonQSamplerV2.run`. -/
inductive Event where
  | taskStart (p : Payload)
  | statusQuery (tid : TaskId) (s : TaskStatus)
  | printMsg (s : TaskStatus)
  | sleep (seconds : ℚ)
  | resultFetch (tid : TaskId)
  deriving DecidableEq, Repr

/-- `time.sleep(0.5)` on line 67 of sampler.py: the settle wait after
observing `Completed`, before fetching the result. -/
def settleDelay : ℚ := 1 / 2

/-- `time.sleep(1)` on line 74 of sampler.py: the retry wait after a
non-terminal status. -/
def retryDelay : ℚ := 1

/-- How an invocation of `IonQSamplerV2.run` ends.  `ok v` is
`return self._qrmi.task_result(new_task_id).value`; `noResult` is the
`break` on `Failed` (the python function then falls off its end and
returns `None`); `submitError` is an exception propagating out of
`task_start`; `outOfFuel` means the embedding stopped unfolding the
`while True` loop, which the python code never does by itself. -/
inductive RunOutcome where
  | ok (v : String)
  | noResult
  | submitError (e : String)
  | outOfFuel
  deriving DecidableEq, Repr

/-- The `while True` loop of `IonQSamplerV2.run` (sampler.py lines 64-74),
unfolded at most `fuel` times; `k` counts the status queries already
issued for `tid`. -/
def pollLoop (q : QuantumResource) (tid : TaskId) :
    Nat → Nat → List Event × RunOutcome
  | 0, _ => ([], .outOfFuel)
  | fuel + 1, k =>
    let s := q.task_status tid k
    if s = .Completed then
      ([.statusQuery tid s, .sleep settleDelay, .resultFetch tid],
        .ok (q.task_result tid).value)
    else if s = .Failed then
      ([.statusQuery tid s], .noResult)
    else
      let r := pollLoop q tid fuel (k + 1)
      (.statusQuery tid s :: .printMsg s :: .sleep retryDelay :: r.1, r.2)

/-- Options for `IonQSamplerV2` (sampler.py lines 24-35). -/
structure Options where
  default_shots : Nat := 1024
  run_options : List (String × String) := []
  deriving Repr

/-- The sampler object: `self._qrmi` and `self._options`. -/
structure IonQSamplerV2 where
  _qrmi : QuantumResource
  _options : Options

/-- `IonQSamplerV2.__init__`: `Options(**options) if options else Options()`. -/
def IonQSamplerV2.new (qrmi : QuantumResource) (options : Option Options) :
    IonQSamplerV2 :=
  { _qrmi := qrmi, _options := options.getD {} }

/-- `IonQSamplerV2.run` (sampler.py lines 50-74).  The qiskit circuit and
its QASM3 serialization are external to this repository, so the circuit is
opaque and `dumps` stands for `qasm3.dumps` with the fixed flags of lines
55-60.  `fuel` bounds the loop unfolding as in `pollLoop`. -/
def IonQSamplerV2.run {Circuit : Type} (self : IonQSamplerV2)
    (dumps : Circuit → String) (circuit : Circuit) (shots : Option Nat)
    (fuel : Nat) : List Event × RunOutcome :=
  let shotsVal := shots.getD self._options.default_shots
  let qasm3_str := dumps circuit
  let payload := Payload.IonQCloud qasm3_str shotsVal
  match self._qrmi.task_start payload with
  | .error e => ([.taskStart payload], .submitError e)
  | .ok new_task_id =>
    let r := pollLoop self._qrmi new_task_id fuel 0
    (.taskStart payload :: r.1, r.2)

/-- Count of `task_status` queries recorded in a trace. -/
def countStatusQueries (evs : List Event) : Nat :=
  evs.countP fun e => match e with
    | .statusQuery _ _ => true
    | _ => false

/-- Count of `task_result` fetches recorded in a trace. -/
def countFetches (evs : List Event) : Nat :=
  evs.countP fun e => match e with
    | .resultFetch _ => true
    | _ => false

/-- Count of `task_start` submissions recorded in a trace. -/
def countStarts (evs : List Event) : Nat :=
  evs.countP fun e => match e with
    | .taskStart _ => true
    | _ => false

/-- Every status query and result fetch in the trace targets `tid`. -/
def allOnTask (tid : TaskId) (evs : List Event) : Bool :=
  evs.all fun e => match e with
    | .statusQuery t _ => t = tid
    | .resultFetch t => t = tid
    | _ => true

/-- A status is terminal when the loop compares equal to `Completed` or
`Failed`; every other status reaches the final `else` branch. -/
def isTerminal (s : TaskStatus) : Bool :=
  s = TaskStatus.Completed || s = TaskStatus.Failed

/-! ### The `QRMIBackend` class (src/python/qrmi/primitives/ibm/backend.py) -/

/-- The names `__getattr__` guards against (backend.py line 98): looking
one of them up raises `AttributeError` immediately, to prevent recursion. -/
def guardedNames : List String := ["_properties", "_target", "_configuration"]

/-- The message format of the `AttributeError` raised by `__getattr__`. -/
def noAttributeMsg (name : String) : String :=
  "'QRMIBackend' object has no attribute '" ++ name ++ "'"

/-- `QRMIBackend.__getattr__` (backend.py lines 91-115).  `selfAttr` is the
class-level `super().__getattribute__` lookup, `configAttr` is lookup on
`self._configuration`; `none` embeds an `AttributeError` from the
respective lookup.  The returned `Except` is `.error msg` when the python
method raises `AttributeError msg` and `.ok v` when it returns `v`. -/
def QRMIBackend.getattr {α : Type} (selfAttr : String → Option α)
    (configAttr : String → Option α) (name : String) : Except String α :=
  if name ∈ guardedNames then
    .error (noAttributeMsg name)
  else
    match selfAttr name with
    | some v => .ok v
    | none =>
      match configAttr name with
      | some v => .ok v
      | none => .error (noAttributeMsg name)

/-- The message of the `IBMBackendError` raised by `QRMIBackend.run`
(backend.py lines 274-278). -/
def backendRunRemovedMsg : String :=
  "Support for backend.run() has been removed. Please see our migration guide " ++
  "https://quantum.cloud.ibm.com/docs/migration-guides/qiskit-runtime for instructions " ++
  "on how to migrate to the primitives interface."

/-- `QRMIBackend.run` (backend.py lines 268-278): its body is a single
`raise IBMBackendError(...)`.  It takes arbitrary positional and keyword
arguments and threads an abstract backend state `st`; the result is the
trace of submissions it performs together with either the raised error or
a returned value with the successor state (which this body never produces). -/
def QRMIBackend.run {α σ : Type} (_args : List α) (_kwargs : List (String × α))
    (_st : σ) : List Event × Except String (Unit × σ) :=
  ([], .error backendRunRemovedMsg)

/-! ### Unfolding lemmas for the polling loop -/

theorem pollLoop_zero (q : QuantumResource) (tid : TaskId) (k : Nat) :
    pollLoop q tid 0 k = ([], .outOfFuel) := rfl

theorem pollLoop_succ (q : QuantumResource) (tid : TaskId) (fuel k : Nat) :
    pollLoop q tid (fuel + 1) k =
      (let s := q.task_status tid k
       if s = .Completed then
         ([.statusQuery tid s, .sleep settleDelay, .resultFetch tid],
           .ok (q.task_result tid).value)
       else if s = .Failed then
         ([.statusQuery tid s], .noResult)
       else
         let r := pollLoop q tid fuel (k + 1)
         (.statusQuery tid s :: .printMsg s :: .sleep retryDelay :: r.1, r.2)) := rfl

theorem pollLoop_completed (q : QuantumResource) (tid : TaskId) (fuel k : Nat)
    (h : q.task_status tid k = .Completed) :
    pollLoop q tid (fuel + 1) k =
      ([.statusQuery tid .Completed, .sleep settleDelay, .resultFetch tid],
        .ok (q.task_result tid).value) := by
  rw [pollLoop_succ]
  simp [h]

theorem pollLoop_failed (q : QuantumResource) (tid : TaskId) (fuel k : Nat)
    (h : q.task_status tid k = .Failed) :
    pollLoop q tid (fuel + 1) k = ([.statusQuery tid .Failed], .noResult) := by
  rw [pollLoop_succ]
  simp [h]

theorem pollLoop_nonterminal (q : QuantumResource) (tid : TaskId) (fuel k : Nat)
    (h : isTerminal (q.task_status tid k) = false) :
    pollLoop q tid (fuel + 1) k =
      (.statusQuery tid (q.task_status tid k) ::
        .printMsg (q.task_status tid k) ::
        .sleep retryDelay :: (pollLoop q tid fuel (k + 1)).1,
        (pollLoop q tid fuel (k + 1)).2) := by
  rw [pollLoop_succ]
  simp only [isTerminal, Bool.or_eq_false_iff, decide_eq_false_iff_not] at h
  simp [h.1, h.2]

/-- Count of `sleep d` events recorded in a trace. -/
def countSleeps (d : ℚ) (evs : List Event) : Nat :=
  evs.countP fun e => e = Event.sleep d

/-- If the first `m` statuses (from query index `k`) are non-terminal and the
next one is `Completed`, the loop issues exactly `m + 1` status queries and
one fetch, and returns the fetched value — provided the fuel covers them. -/
theorem pollLoop_completes_after (q : QuantumResource) (tid : TaskId) :
    ∀ (m k fuel : Nat),
      (∀ j, j < m → isTerminal (q.task_status tid (k + j)) = false) →
      q.task_status tid (k + m) = .Completed →
      m < fuel →
      countStatusQueries (pollLoop q tid fuel k).1 = m + 1 ∧
      countFetches (pollLoop q tid fuel k).1 = 1 ∧
      (pollLoop q tid fuel k).2 = .ok (q.task_result tid).value := by
  intro m
  induction m with
  | zero =>
    intro k fuel _ hcomp hfuel
    obtain ⟨f, rfl⟩ : ∃ f, fuel = f + 1 := ⟨fuel - 1, (Nat.succ_pred_eq_of_pos hfuel).symm⟩
    rw [pollLoop_completed q tid f k (by simpa using hcomp)]
    simp [countStatusQueries, countFetches]
  | succ n ih =>
    intro k fuel hpre hcomp hfuel
    obtain ⟨f, rfl⟩ : ∃ f, fuel = f + 1 :=
      ⟨fuel - 1, (Nat.succ_pred_eq_of_pos (Nat.lt_of_le_of_lt (Nat.zero_le _) hfuel)).symm⟩
    have h0 : isTerminal (q.task_status tid k) = false := by
      simpa using hpre 0 (Nat.succ_pos n)
    rw [pollLoop_nonterminal q tid f k h0]
    have ihk := ih (k + 1) f
      (fun j hj => by
        have := hpre (j + 1) (Nat.succ_lt_succ hj)
        simpa [Nat.add_assoc, Nat.add_comm 1 j] using this)
      (by simpa [Nat.add_assoc, Nat.add_comm 1 n] using hcomp)
      (Nat.lt_of_succ_lt_succ hfuel)
    refine ⟨?_, ?_, ihk.2.2⟩
    · simp [countStatusQueries, List.countP_cons] at ihk ⊢
      omega
    · simpa [countFetches, List.countP_cons] using ihk.2.1

/-- If no status query ever returns a terminal status, the loop never exits:
every fuel bound is exhausted. -/
theorem pollLoop_never_exits (q : QuantumResource) (tid : TaskId)
    (h : ∀ k, isTerminal (q.task_status tid k) = false) :
    ∀ fuel k, (pollLoop q tid fuel k).2 = .outOfFuel := by
  intro fuel
  induction fuel with
  | zero => intro k; rfl
  | succ f ih =>
    intro k
    rw [pollLoop_nonterminal q tid f k (h k)]
    exact ih (k + 1)

/-- The loop exits (with or without a result) only if some status query
within the fuel bound returned `Completed` or `Failed`; more precisely, a
returned value needs a `Completed` answer and a `noResult` exit needs a
`Failed` answer. -/
theorem pollLoop_exit_needs_terminal (q : QuantumResource) (tid : TaskId) :
    ∀ (fuel k : Nat),
      ((∃ v, (pollLoop q tid fuel k).2 = .ok v) →
        ∃ j, j < fuel ∧ q.task_status tid (k + j) = .Completed) ∧
      ((pollLoop q tid fuel k).2 = .noResult →
        ∃ j, j < fuel ∧ q.task_status tid (k + j) = .Failed) := by
  intro fuel
  induction fuel with
  | zero =>
    intro k
    exact ⟨fun ⟨v, hv⟩ => by simp [pollLoop_zero] at hv,
      fun hv => by simp [pollLoop_zero] at hv⟩
  | succ f ih =>
    intro k
    by_cases hc : q.task_status tid k = .Completed
    · rw [pollLoop_completed q tid f k hc]
      exact ⟨fun _ => ⟨0, Nat.succ_pos f, by simpa using hc⟩,
        fun hv => by simp at hv⟩
    · by_cases hf : q.task_status tid k = .Failed
      · rw [pollLoop_failed q tid f k hf]
        exact ⟨fun ⟨v, hv⟩ => by simp at hv,
          fun _ => ⟨0, Nat.succ_pos f, by simpa using hf⟩⟩
      · have hnt : isTerminal (q.task_status tid k) = false := by
          simp [isTerminal, hc, hf]
        rw [pollLoop_nonterminal q tid f k hnt]
        constructor
        · intro hv
          obtain ⟨j, hj, hjc⟩ := (ih (k + 1)).1 hv
          exact ⟨j + 1, Nat.succ_lt_succ hj,
            by simpa [Nat.add_assoc, Nat.add_comm 1 j] using hjc⟩
        · intro hv
          obtain ⟨j, hj, hjc⟩ := (ih (k + 1)).2 hv
          exact ⟨j + 1, Nat.succ_lt_succ hj,
            by simpa [Nat.add_assoc, Nat.add_comm 1 j] using hjc⟩

/-- Every status query and result fetch the loop records targets the task
identifier it was given. -/
theorem pollLoop_allOnTask (q : QuantumResource) (tid : TaskId) :
    ∀ (fuel k : Nat), allOnTask tid (pollLoop q tid fuel k).1 = true := by
  intro fuel
  induction fuel with
  | zero => intro k; rfl
  | succ f ih =>
    intro k
    by_cases hc : q.task_status tid k = .Completed
    · rw [pollLoop_completed q tid f k hc]; simp [allOnTask]
    · by_cases hf : q.task_status tid k = .Failed
      · rw [pollLoop_failed q tid f k hf]; simp [allOnTask]
      · have hnt : isTerminal (q.task_status tid k) = false := by
          simp [isTerminal, hc, hf]
        rw [pollLoop_nonterminal q tid f k hnt]
        have := ih (k + 1)
        simp [allOnTask, List.all_cons] at this ⊢
        exact this

/-- Whenever the loop returns a value, its trace ends with the `Completed`
observation, then the settle sleep, then the single result fetch; no fetch
and no settle-length sleep occurs earlier in the loop's trace. -/
theorem pollLoop_ok_trace_shape (q : QuantumResource) (tid : TaskId) :
    ∀ (fuel k : Nat) (v : String),
      (pollLoop q tid fuel k).2 = .ok v →
      ∃ pre, (pollLoop q tid fuel k).1 =
          pre ++ [.statusQuery tid .Completed, .sleep settleDelay, .resultFetch tid] ∧
        countFetches pre = 0 ∧ countSleeps settleDelay pre = 0 := by
  intro fuel
  induction fuel with
  | zero => intro k v hv; simp [pollLoop_zero] at hv
  | succ f ih =>
    intro k v hv
    by_cases hc : q.task_status tid k = .Completed
    · rw [pollLoop_completed q tid f k hc]
      exact ⟨[], by simp, by simp [countFetches], by simp [countSleeps]⟩
    · by_cases hf : q.task_status tid k = .Failed
      · rw [pollLoop_failed q tid f k hf] at hv; simp at hv
      · have hnt : isTerminal (q.task_status tid k) = false := by
          simp [isTerminal, hc, hf]
        rw [pollLoop_nonterminal q tid f k hnt] at hv ⊢
        obtain ⟨pre, hpre, hfetch, hsleep⟩ := ih (k + 1) v hv
        refine ⟨.statusQuery tid (q.task_status tid k) ::
          .printMsg (q.task_status tid k) :: .sleep retryDelay :: pre, ?_, ?_, ?_⟩
        · simp [hpre]
        · simpa [countFetches, List.countP_cons] using hfetch
        · have hne : retryDelay ≠ settleDelay := by
            simp [retryDelay, settleDelay]
          simpa [countSleeps, List.countP_cons, hne] using hsleep

/-- The loop can only leave by returning a value, breaking on `Failed`, or
running out of fuel; it never produces a submission error. -/
theorem pollLoop_outcome_cases (q : QuantumResource) (tid : TaskId) :
    ∀ (fuel k : Nat),
      (∃ v, (pollLoop q tid fuel k).2 = .ok v) ∨
      (pollLoop q tid fuel k).2 = .noResult ∨
      (pollLoop q tid fuel k).2 = .outOfFuel := by
  intro fuel
  induction fuel with
  | zero => intro k; right; right; rfl
  | succ f ih =>
    intro k
    by_cases hc : q.task_status tid k = .Completed
    · rw [pollLoop_completed q tid f k hc]; exact .inl ⟨_, rfl⟩
    · by_cases hf : q.task_status tid k = .Failed
      · rw [pollLoop_failed q tid f k hf]; exact .inr (.inl rfl)
      · have hnt : isTerminal (q.task_status tid k) = false := by
          simp [isTerminal, hc, hf]
        rw [pollLoop_nonterminal q tid f k hnt]
        exact ih (k + 1)

/-- When submission succeeds with identifier `tid`, `run` records the
submission and then behaves as the polling loop started at query index 0. -/
theorem ionq_run_start_ok {Circuit : Type} (q : QuantumResource) (opts : Options)
    (dumps : Circuit → String) (circuit : Circuit) (shots : Option Nat)
    (fuel : Nat) (tid : TaskId)
    (hstart : q.task_start
      (Payload.IonQCloud (dumps circuit) (shots.getD opts.default_shots)) = .ok tid) :
    IonQSamplerV2.run ⟨q, opts⟩ dumps circuit shots fuel =
      (.taskStart (Payload.IonQCloud (dumps circuit) (shots.getD opts.default_shots)) ::
        (pollLoop q tid fuel 0).1, (pollLoop q tid fuel 0).2) := by
  simp [IonQSamplerV2.run, hstart]

/-! ### Concrete stub clients, used to instantiate the theorems -/

/-- A stub client that answers `Running` to the first `n - 1` status
queries and `Completed` to the `n`-th. -/
def stubCompletesAt (n : Nat) : QuantumResource where
  task_start := fun _ => .ok 7
  task_status := fun _ k => if k + 1 = n then .Completed else .Running
  task_result := fun _ => ⟨"counts"⟩

/-- A stub client that answers `Failed` to every status query. -/
def stubFailsFirst : QuantumResource where
  task_start := fun _ => .ok 3
  task_status := fun _ _ => .Failed
  task_result := fun _ => ⟨"unused"⟩

/-- A stub client that never reaches a terminal status. -/
def stubForever : QuantumResource where
  task_start := fun _ => .ok 5
  task_status := fun _ _ => .Running
  task_result := fun _ => ⟨"unused"⟩

/-- A stub client whose submission fails. -/
def stubStartFails : QuantumResource where
  task_start := fun _ => .error "submission refused"
  task_status := fun _ _ => .Running
  task_result := fun _ => ⟨"unused"⟩

/-- A stub client that answers an unexpected status value first, and
`Failed` from the second query on. -/
def stubOther : QuantumResource where
  task_start := fun _ => .ok 9
  task_status := fun _ k => if k = 0 then .other 5 else .Failed
  task_result := fun _ => ⟨"unused"⟩

/-! ### Claim theorems -/

/-- C1: for every client whose first `N - 1` status answers are
non-terminal and whose `N`-th answer is `Completed` (so in particular no
earlier query returns `Failed`), `IonQSamplerV2.run` performs exactly `N`
status queries, each on the identifier returned by `task_start`, then
exactly one result fetch on that identifier, and returns the fetched
result's value — for any fuel bound covering the `N` queries. -/
theorem ionq_run_completes_on_nth_query {Circuit : Type} (q : QuantumResource)
    (opts : Options) (dumps : Circuit → String) (circuit : Circuit)
    (shots : Option Nat) (tid : TaskId) (N fuel : Nat)
    (hstart : q.task_start
      (Payload.IonQCloud (dumps circuit) (shots.getD opts.default_shots)) = .ok tid)
    (hN : 1 ≤ N)
    (hpre : ∀ j, j < N - 1 → isTerminal (q.task_status tid j) = false)
    (hcomp : q.task_status tid (N - 1) = .Completed)
    (hfuel : N ≤ fuel) :
    countStatusQueries (IonQSamplerV2.run ⟨q, opts⟩ dumps circuit shots fuel).1 = N ∧
    countFetches (IonQSamplerV2.run ⟨q, opts⟩ dumps circuit shots fuel).1 = 1 ∧
    allOnTask tid (IonQSamplerV2.run ⟨q, opts⟩ dumps circuit shots fuel).1 = true ∧
    (IonQSamplerV2.run ⟨q, opts⟩ dumps circuit shots fuel).2 =
      .ok (q.task_result tid).value := by
  rw [ionq_run_start_ok q opts dumps circuit shots fuel tid hstart]
  have hloop := pollLoop_completes_after q tid (N - 1) 0 fuel
    (fun j hj => by simpa using hpre j hj)
    (by simpa using hcomp)
    (Nat.lt_of_lt_of_le (Nat.sub_lt hN Nat.one_pos) hfuel)
  have hN1 : N - 1 + 1 = N := Nat.succ_pred_eq_of_pos hN
  refine ⟨?_, ?_, ?_, by simpa using hloop.2.2⟩
  · have := hloop.1
    simp [countStatusQueries, List.countP_cons] at this ⊢
    omega
  · have := hloop.2.1
    simpa [countFetches, List.countP_cons] using this
  · have := pollLoop_allOnTask q tid fuel 0
    simp [allOnTask, List.all_cons] at this ⊢
    exact this

/-- C1 witness: the stub completing on the third query, polled with fuel
5, is queried exactly three times, fetched once, and yields its result. -/
theorem ionq_run_completes_on_nth_query_witness :
    countStatusQueries
      (IonQSamplerV2.run ⟨stubCompletesAt 3, {}⟩ (fun s : String => s) "qasm" (some 100) 5).1 = 3 ∧
    countFetches
      (IonQSamplerV2.run ⟨stubCompletesAt 3, {}⟩ (fun s : String => s) "qasm" (some 100) 5).1 = 1 ∧
    allOnTask 7
      (IonQSamplerV2.run ⟨stubCompletesAt 3, {}⟩ (fun s : String => s) "qasm" (some 100) 5).1 = true ∧
    (IonQSamplerV2.run ⟨stubCompletesAt 3, {}⟩ (fun s : String => s) "qasm" (some 100) 5).2 =
      .ok ((stubCompletesAt 3).task_result 7).value :=
  ionq_run_completes_on_nth_query (stubCompletesAt 3) {} (fun s : String => s)
    "qasm" (some 100) 7 3 5 rfl (by decide) (by decide) (by decide) (by decide)

/-- C2: for every client whose first status answer is `Failed`,
`IonQSamplerV2.run` performs exactly one status query and zero result
fetches, and leaves the loop with no result (python returns `None`). -/
theorem ionq_run_failed_first_no_fetch {Circuit : Type} (q : QuantumResource)
    (opts : Options) (dumps : Circuit → String) (circuit : Circuit)
    (shots : Option Nat) (tid : TaskId) (fuel : Nat)
    (hstart : q.task_start
      (Payload.IonQCloud (dumps circuit) (shots.getD opts.default_shots)) = .ok tid)
    (hfail : q.task_status tid 0 = .Failed)
    (hfuel : 0 < fuel) :
    countFetches (IonQSamplerV2.run ⟨q, opts⟩ dumps circuit shots fuel).1 = 0 ∧
    countStatusQueries (IonQSamplerV2.run ⟨q, opts⟩ dumps circuit shots fuel).1 = 1 ∧
    (IonQSamplerV2.run ⟨q, opts⟩ dumps circuit shots fuel).2 = .noResult := by
  obtain ⟨f, rfl⟩ : ∃ f, fuel = f + 1 := ⟨fuel - 1, (Nat.succ_pred_eq_of_pos hfuel).symm⟩
  rw [ionq_run_start_ok q opts dumps circuit shots (f + 1) tid hstart]
  rw [pollLoop_failed q tid f 0 hfail]
  refine ⟨?_, ?_, rfl⟩
  · simp [countFetches]
  · simp [countStatusQueries]

/-- C2 witness: the stub failing on the first query is fetched zero times
and its run ends with no result. -/
theorem ionq_run_failed_first_no_fetch_witness :
    countFetches
      (IonQSamplerV2.run ⟨stubFailsFirst, {}⟩ (fun s : String => s) "qasm" none 4).1 = 0 ∧
    countStatusQueries
      (IonQSamplerV2.run ⟨stubFailsFirst, {}⟩ (fun s : String => s) "qasm" none 4).1 = 1 ∧
    (IonQSamplerV2.run ⟨stubFailsFirst, {}⟩ (fun s : String => s) "qasm" none 4).2 = .noResult :=
  ionq_run_failed_first_no_fetch stubFailsFirst {} (fun s : String => s)
    "qasm" none 3 4 rfl rfl (by decide)

/-- C5: if `task_start` fails, `IonQSamplerV2.run` propagates the failure
at once: the trace holds the single submission attempt and no status query
or result fetch, and the outcome is the submission error. -/
theorem ionq_run_submit_failfast {Circuit : Type} (q : QuantumResource)
    (opts : Options) (dumps : Circuit → String) (circuit : Circuit)
    (shots : Option Nat) (fuel : Nat) (e : String)
    (hstart : q.task_start
      (Payload.IonQCloud (dumps circuit) (shots.getD opts.default_shots)) = .error e) :
    IonQSamplerV2.run ⟨q, opts⟩ dumps circuit shots fuel =
      ([.taskStart (Payload.IonQCloud (dumps circuit) (shots.getD opts.default_shots))],
        .submitError e) ∧
    countStarts (IonQSamplerV2.run ⟨q, opts⟩ dumps circuit shots fuel).1 = 1 ∧
    countStatusQueries (IonQSamplerV2.run ⟨q, opts⟩ dumps circuit shots fuel).1 = 0 ∧
    countFetches (IonQSamplerV2.run ⟨q, opts⟩ dumps circuit shots fuel).1 = 0 := by
  have hrun : IonQSamplerV2.run ⟨q, opts⟩ dumps circuit shots fuel =
      ([.taskStart (Payload.IonQCloud (dumps circuit) (shots.getD opts.default_shots))],
        .submitError e) := by
    simp [IonQSamplerV2.run, hstart]
  refine ⟨hrun, ?_, ?_, ?_⟩ <;>
    simp [hrun, countStarts, countStatusQueries, countFetches]

/-- C5 witness: the stub rejecting submission yields the submission error
with one start, zero queries and zero fetches. -/
theorem ionq_run_submit_failfast_witness :
    IonQSamplerV2.run ⟨stubStartFails, {}⟩ (fun s : String => s) "qasm" none 6 =
      ([.taskStart (Payload.IonQCloud "qasm" 1024)], .submitError "submission refused") ∧
    countStarts (IonQSamplerV2.run ⟨stubStartFails, {}⟩ (fun s : String => s) "qasm" none 6).1 = 1 ∧
    countStatusQueries
      (IonQSamplerV2.run ⟨stubStartFails, {}⟩ (fun s : String => s) "qasm" none 6).1 = 0 ∧
    countFetches (IonQSamplerV2.run ⟨stubStartFails, {}⟩ (fun s : String => s) "qasm" none 6).1 = 0 :=
  ionq_run_submit_failfast stubStartFails {} (fun s : String => s) "qasm" none 6
    "submission refused" rfl

/-- C3: `IonQSamplerV2.run` enforces no iteration bound and no timeout:
if no status query ever answers `Completed` or `Failed`, every fuel bound
is exhausted with the loop still running; and whenever the loop does end
within some fuel bound, a terminal status was observed within it. -/
theorem ionq_run_no_timeout {Circuit : Type} (q : QuantumResource)
    (opts : Options) (dumps : Circuit → String) (circuit : Circuit)
    (shots : Option Nat) (tid : TaskId)
    (hstart : q.task_start
      (Payload.IonQCloud (dumps circuit) (shots.getD opts.default_shots)) = .ok tid) :
    ((∀ k, isTerminal (q.task_status tid k) = false) →
      ∀ fuel, (IonQSamplerV2.run ⟨q, opts⟩ dumps circuit shots fuel).2 = .outOfFuel) ∧
    (∀ fuel, (IonQSamplerV2.run ⟨q, opts⟩ dumps circuit shots fuel).2 ≠ .outOfFuel →
      ∃ j, j < fuel ∧ isTerminal (q.task_status tid j) = true) := by
  constructor
  · intro h fuel
    rw [ionq_run_start_ok q opts dumps circuit shots fuel tid hstart]
    exact pollLoop_never_exits q tid h fuel 0
  · intro fuel hne
    rw [ionq_run_start_ok q opts dumps circuit shots fuel tid hstart] at hne
    rcases pollLoop_outcome_cases q tid fuel 0 with hok | hfail | hoof
    · obtain ⟨j, hj, hjc⟩ := (pollLoop_exit_needs_terminal q tid fuel 0).1 hok
      exact ⟨j, hj, by simp_all [isTerminal]⟩
    · obtain ⟨j, hj, hjc⟩ := (pollLoop_exit_needs_terminal q tid fuel 0).2 hfail
      exact ⟨j, hj, by simp_all [isTerminal]⟩
    · exact absurd hoof hne

/-- C3 witness: the never-terminal stub exhausts a fuel bound of 3 with
the loop still running. -/
theorem ionq_run_no_timeout_witness :
    (IonQSamplerV2.run ⟨stubForever, {}⟩ (fun s : String => s) "qasm" none 3).2 = .outOfFuel :=
  (ionq_run_no_timeout stubForever {} (fun s : String => s) "qasm" none 5 rfl).1
    (fun _ => rfl) 3

/-- C4: in every run that returns a value, the trace ends with the
`Completed` observation, then the half-second settle sleep, then the
single result fetch: the settle delay elapses strictly after `Completed`
is observed and strictly before the fetch is issued, and no fetch or
settle-length sleep occurs earlier. -/
theorem ionq_run_settle_before_fetch {Circuit : Type} (q : QuantumResource)
    (opts : Options) (dumps : Circuit → String) (circuit : Circuit)
    (shots : Option Nat) (tid : TaskId) (fuel : Nat) (v : String)
    (hstart : q.task_start
      (Payload.IonQCloud (dumps circuit) (shots.getD opts.default_shots)) = .ok tid)
    (hok : (IonQSamplerV2.run ⟨q, opts⟩ dumps circuit shots fuel).2 = .ok v) :
    ∃ pre, (IonQSamplerV2.run ⟨q, opts⟩ dumps circuit shots fuel).1 =
        pre ++ [.statusQuery tid .Completed, .sleep settleDelay, .resultFetch tid] ∧
      countFetches pre = 0 ∧ countSleeps settleDelay pre = 0 := by
  rw [ionq_run_start_ok q opts dumps circuit shots fuel tid hstart] at hok ⊢
  obtain ⟨pre, hpre, hfetch, hsleep⟩ :=
    pollLoop_ok_trace_shape q tid fuel 0 v (by simpa using hok)
  refine ⟨.taskStart (Payload.IonQCloud (dumps circuit) (shots.getD opts.default_shots)) :: pre,
    ?_, ?_, ?_⟩
  · simp [hpre]
  · simpa [countFetches, List.countP_cons] using hfetch
  · simpa [countSleeps, List.countP_cons] using hsleep

/-- C4 witness: the stub completing on the first query yields a trace
ending in the observation, the settle sleep and the fetch, with neither
occurring earlier. -/
theorem ionq_run_settle_before_fetch_witness :
    ∃ pre, (IonQSamplerV2.run ⟨stubCompletesAt 1, {}⟩ (fun s : String => s) "qasm" none 2).1 =
        pre ++ [.statusQuery 7 .Completed, .sleep settleDelay, .resultFetch 7] ∧
      countFetches pre = 0 ∧ countSleeps settleDelay pre = 0 :=
  ionq_run_settle_before_fetch (stubCompletesAt 1) {} (fun s : String => s)
    "qasm" none 7 2 "counts" rfl (by decide)

/-- C6: a status answer that is neither `Completed` nor `Failed` (unknown
values included) only makes the loop print the status, sleep the retry
interval and query again; and the loop only ever ends on `Completed`
(returning a value) or on `Failed` (leaving without a result). -/
theorem ionq_run_nonterminal_continues (q : QuantumResource) (tid : TaskId)
    (fuel k : Nat)
    (hnt : isTerminal (q.task_status tid k) = false) :
    pollLoop q tid (fuel + 1) k =
      (.statusQuery tid (q.task_status tid k) :: .printMsg (q.task_status tid k) ::
        .sleep retryDelay :: (pollLoop q tid fuel (k + 1)).1,
        (pollLoop q tid fuel (k + 1)).2) ∧
    (∀ v, (pollLoop q tid fuel k).2 = .ok v →
      ∃ j, j < fuel ∧ q.task_status tid (k + j) = .Completed) ∧
    ((pollLoop q tid fuel k).2 = .noResult →
      ∃ j, j < fuel ∧ q.task_status tid (k + j) = .Failed) := by
  refine ⟨pollLoop_nonterminal q tid fuel k hnt, ?_, ?_⟩
  · intro v hv
    exact (pollLoop_exit_needs_terminal q tid fuel k).1 ⟨v, hv⟩
  · exact (pollLoop_exit_needs_terminal q tid fuel k).2

/-- C6 witness: on the stub answering an unexpected status value first,
the loop prints, sleeps the retry interval, and queries again. -/
theorem ionq_run_nonterminal_continues_witness :
    pollLoop stubOther 9 2 0 =
      (.statusQuery 9 (stubOther.task_status 9 0) :: .printMsg (stubOther.task_status 9 0) ::
        .sleep retryDelay :: (pollLoop stubOther 9 1 1).1,
        (pollLoop stubOther 9 1 1).2) ∧
    (∀ v, (pollLoop stubOther 9 1 0).2 = .ok v →
      ∃ j, j < 1 ∧ stubOther.task_status 9 (0 + j) = .Completed) ∧
    ((pollLoop stubOther 9 1 0).2 = .noResult →
      ∃ j, j < 1 ∧ stubOther.task_status 9 (0 + j) = .Failed) :=
  ionq_run_nonterminal_continues stubOther 9 1 0 (by decide)

/-- C7: the fixed retry wait between non-terminal polls (1 second) is
strictly longer than the settle wait applied after `Completed` (half a
second). -/
theorem retry_delay_longer_than_settle : settleDelay < retryDelay := by
  simp only [settleDelay, retryDelay]
  norm_num

/-- C8: `QRMIBackend.__getattr__` raises at once on the three guarded
names; on every other name it first tries the object itself, otherwise
falls back to the configuration object's value, and raises
`AttributeError` exactly when neither provides the attribute. -/
theorem qrmibackend_getattr_delegates {α : Type} (selfAttr configAttr : String → Option α)
    (name : String) :
    (name ∈ guardedNames →
      QRMIBackend.getattr selfAttr configAttr name = .error (noAttributeMsg name)) ∧
    (name ∉ guardedNames →
      (∀ v, selfAttr name = some v →
        QRMIBackend.getattr selfAttr configAttr name = .ok v) ∧
      (selfAttr name = none → ∀ v, configAttr name = some v →
        QRMIBackend.getattr selfAttr configAttr name = .ok v) ∧
      (QRMIBackend.getattr selfAttr configAttr name = .error (noAttributeMsg name) ↔
        selfAttr name = none ∧ configAttr name = none)) := by
  constructor
  · intro hg
    simp [QRMIBackend.getattr, hg]
  · intro hg
    refine ⟨?_, ?_, ?_⟩
    · intro v hv
      simp [QRMIBackend.getattr, hg, hv]
    · intro hnone v hv
      simp [QRMIBackend.getattr, hg, hnone, hv]
    · constructor
      · intro herr
        cases hself : selfAttr name with
        | some v => simp [QRMIBackend.getattr, hg, hself] at herr
        | none =>
          cases hconf : configAttr name with
          | some v => simp [QRMIBackend.getattr, hg, hself, hconf] at herr
          | none => exact ⟨rfl, rfl⟩
      · rintro ⟨hself, hconf⟩
        simp [QRMIBackend.getattr, hg, hself, hconf]

/-- A concrete class-level attribute table: only `version` exists. -/
def selfAttrStub : String → Option Nat := fun n => if n = "version" then some 2 else none

/-- A concrete configuration attribute table: only `num_qubits` exists. -/
def configAttrStub : String → Option Nat := fun n => if n = "num_qubits" then some 127 else none

/-- C8 witness: `num_qubits`, absent on the object, is served from the
configuration object. -/
theorem qrmibackend_getattr_delegates_witness :
    QRMIBackend.getattr selfAttrStub configAttrStub "num_qubits" = .ok 127 :=
  ((qrmibackend_getattr_delegates selfAttrStub configAttrStub "num_qubits").2
    (by simp [guardedNames])).2.1 rfl 127 rfl

/-- C9: `QRMIBackend.run` raises `IBMBackendError` with its fixed message
for every combination of positional and keyword arguments and every
backend state, performing no submission (empty effect trace) and no state
change (no successor state is ever produced). -/
theorem qrmibackend_run_always_raises {α σ : Type} (args : List α)
    (kwargs : List (String × α)) (st : σ) :
    QRMIBackend.run args kwargs st = ([], .error backendRunRemovedMsg) := rfl

/-- The shot count recorded in the payload of the leading `task_start`
event of a trace, when there is one. -/
def headPayloadShots (evs : List Event) : Option Nat :=
  match evs with
  | .taskStart (.IonQCloud _ s) :: _ => some s
  | _ => none

/-- C10: the payload `IonQSamplerV2.run` submits carries
`options.default_shots` when `shots` is `None` and the given value
unchanged otherwise; a sampler constructed without options has
`default_shots = 1024`. -/
theorem ionq_run_shots_resolution {Circuit : Type} (q : QuantumResource)
    (opts : Options) (dumps : Circuit → String) (circuit : Circuit) (fuel : Nat) :
    headPayloadShots (IonQSamplerV2.run ⟨q, opts⟩ dumps circuit none fuel).1 =
      some opts.default_shots ∧
    (∀ s, headPayloadShots (IonQSamplerV2.run ⟨q, opts⟩ dumps circuit (some s) fuel).1 =
      some s) ∧
    (IonQSamplerV2.new q none)._options.default_shots = 1024 := by
  refine ⟨?_, fun s => ?_, rfl⟩ <;>
  · simp only [IonQSamplerV2.run]
    cases q.task_start (Payload.IonQCloud (dumps circuit) _) <;> rfl

end QRMI
